import Mathlib

/-!
Verification of the `dnsclient.py` DNS client against its specification.

The Python source (`src/dnsclient.py`) is shallowly embedded here:
  * Python `bytes` buffers are `List Nat` (each element a byte value),
  * Python `str` values are `List Char`,
  * fallible Python code returns `Except PyErr _`, where `PyErr` models the
    exception that the interpreter would raise,
  * the recursive / iterative loops take an explicit fuel parameter; fuel is
    consumed on every loop step and recursive call, so exhausting every fuel
    budget models a computation that never terminates on its own (in CPython
    it would die with `RecursionError` once the interpreter recursion limit
    is exceeded).
-/

deriving instance DecidableEq for Except

/-- Exceptions the embedded Python code can raise.
`recursionError` doubles as the fuel-exhaustion marker. -/
inductive PyErr where
  | indexError
  | unicodeError
  | recursionError
  | structError
  | valueError
  | typeError
deriving DecidableEq, Repr

/-- Python `bytes.decode('ascii')`: succeeds iff every byte is < 128,
producing the corresponding characters. -/
def asciiDecode : List Nat → Option (List Char)
  | [] => some []
  | b :: bs =>
    if b < 128 then (asciiDecode bs).map (fun cs => Char.ofNat b :: cs)
    else none

/-- The epilogue of `DomainName.parse` (src/dnsclient.py lines 142-146):
given the accumulated domain string, the loop index and the `omit` flag, it
strips one trailing dot (raising `IndexError` via `self._domain[-1]` when the
string is empty) and returns `i` if a pointer was followed, else `i + 1`. -/
def finishDN : List Char × Nat × Bool → Except PyErr (List Char × Nat)
  | (dom, i, om) =>
    match dom.getLast? with
    | none => .error .indexError
    | some c => .ok (if c = '.' then dom.dropLast else dom, if om then i else i + 1)

/-- The `while` loop of `DomainName.parse` (src/dnsclient.py lines 126-141).
State: current index `i` and accumulated string `dom` (the method is only ever
invoked on `DomainName()` objects whose `_domain` starts as `''`).
  * loop guard: `i < len(data) and data[i] != 0`;
  * `data[i] == 0xc0` (the code tests for the exact byte 192, and reads the
    8-bit target `data[i + 1]`, raising `IndexError` when `i + 1` is out of
    range): recursively run the full parse (loop + epilogue) at the target
    with a fresh empty accumulator, append its result, stop with `omit`;
  * otherwise: treat `data[i]` as a label length, ASCII-decode that many
    bytes (Python slicing clamps at the end of the buffer) and append them
    plus a dot.
Fuel is consumed at each step; running out models non-termination. -/
def goF (data : List Nat) : Nat → Nat → List Char → Except PyErr (List Char × Nat × Bool)
  | 0, _, _ => .error .recursionError
  | fuel + 1, i, dom =>
    if i < data.length ∧ data.getD i 0 ≠ 0 then
      if data.getD i 0 = 192 then
        if i + 1 < data.length then
          match (match goF data fuel (data.getD (i + 1) 0) [] with
                 | .error e => .error e
                 | .ok r => finishDN r : Except PyErr (List Char × Nat)) with
          | .error e => .error e
          | .ok (sub, _) => .ok (dom ++ sub, i + 2, true)
        else .error .indexError
      else
        match asciiDecode ((data.drop (i + 1)).take (data.getD i 0)) with
        | none => .error .unicodeError
        | some cs => goF data fuel (i + 1 + data.getD i 0) (dom ++ cs ++ ['.'])
    else .ok (dom, i, false)

/-- `DomainName.parse(data, offset)` on a freshly constructed (empty)
`DomainName` (src/dnsclient.py lines 118-146): run the loop, then the
trailing-dot epilogue, and return the decoded string with the next offset. -/
def parseF (data : List Nat) (fuel offset : Nat) : Except PyErr (List Char × Nat) :=
  match goF data fuel offset [] with
  | .error e => .error e
  | .ok r => finishDN r

/-- Python `str.split('.')` on a string embedded as `List Char`:
`''.split('.') = ['']`, and every `'.'` starts a new (possibly empty) piece. -/
def splitDot : List Char → List (List Char)
  | [] => [[]]
  | c :: rest =>
    match splitDot rest with
    | [] => [[]]
    | h :: t => if c = '.' then [] :: h :: t else (c :: h) :: t

/-- Python `sep.join(pieces)` for a one-character separator. -/
def joinSep (sep : Char) : List (List Char) → List Char
  | [] => []
  | [x] => x
  | x :: xs => x ++ sep :: joinSep sep xs

/-- The dotted form of a label list, `'.'.join(labels)`. -/
def joinDot (L : List (List Char)) : List Char := joinSep '.' L

/-- The wire encoding of a label list: for each label a length octet followed
by the label's character codes (the loop body of `DomainName.__bytes__`;
`bytes([n])` requires `n ≤ 255` and `bytes(s,'ascii')` requires ASCII content,
which the theorems below assume). -/
def encLabels : List (List Char) → List Nat
  | [] => []
  | l :: L => l.length :: (l.map Char.toNat ++ encLabels L)

/-- `bytes(DomainName(name))` (src/dnsclient.py lines 110-116 and 151-157):
the constructor splits `name` on `'.'` into `_split`/`_meta`, and `__bytes__`
emits length octet + ASCII bytes per piece, then a terminating zero byte. -/
def dnBytes (name : List Char) : List Nat :=
  encLabels (splitDot name) ++ [0]

/-- Each label followed by a literal dot, as accumulated by the parse loop. -/
def dotted : List (List Char) → List Char
  | [] => []
  | l :: L => l ++ '.' :: dotted L

/-- The `RecordData` field bag after `parse` (src/dnsclient.py lines 22-69):
`_type` plus the five optional payload fields. -/
structure RecordDataS where
  rtype : Nat
  IP : Option (List Nat)
  NS : Option (List Char)
  CName : Option (List Char)
  Preference : Option Nat
  ME : Option (List Char)
deriving DecidableEq, Repr

/-- A `RecordData` with `_type = t` and every payload field still `None`. -/
def blankRD (t : Nat) : RecordDataS := ⟨t, none, none, none, none, none⟩

/-- Big-endian 16-bit read at index `i` (out-of-range bytes read as 0). -/
def beU16 (data : List Nat) (i : Nat) : Nat :=
  data.getD i 0 * 256 + data.getD (i + 1) 0

/-- Big-endian 32-bit read at index `i`. -/
def beU32 (data : List Nat) (i : Nat) : Nat :=
  ((data.getD i 0 * 256 + data.getD (i + 1) 0) * 256 + data.getD (i + 2) 0) * 256
    + data.getD (i + 3) 0

/-- `RecordData.parse(type, data, length, offset)` (src/dnsclient.py lines
35-69).  Dispatch on the numeric type:
  * A (1) and AAAA (28): store the raw slice `data[i:i+length]`, advance by
    `length`;
  * NS (2) / CNAME (5): decode one `DomainName` at `i`;
  * MX (15): `struct.unpack('H', data[i:i+2])` — NATIVE byte order, which on
    the reference platform is LITTLE-endian, and a `struct.error` unless the
    slice has exactly 2 bytes — then one `DomainName`;
  * anything else: `pass`, leaving every payload field `None` and the offset
    unchanged. -/
def rdParse (t : Nat) (data : List Nat) (len fuel i : Nat) :
    Except PyErr (RecordDataS × Nat) :=
  if t = 1 then .ok ({ blankRD 1 with IP := some ((data.drop i).take len) }, i + len)
  else if t = 2 then
    match parseF data fuel i with
    | .error e => .error e
    | .ok (d, j) => .ok ({ blankRD 2 with NS := some d }, j)
  else if t = 5 then
    match parseF data fuel i with
    | .error e => .error e
    | .ok (d, j) => .ok ({ blankRD 5 with CName := some d }, j)
  else if t = 15 then
    if ((data.drop i).take 2).length = 2 then
      match parseF data fuel (i + 2) with
      | .error e => .error e
      | .ok (d, j) =>
          .ok ({ blankRD 15 with
                  Preference := some (data.getD i 0 + 256 * data.getD (i + 1) 0),
                  ME := some d }, j)
    else .error .structError
  else if t = 28 then .ok ({ blankRD 28 with IP := some ((data.drop i).take len) }, i + len)
  else .ok (blankRD t, i)

/-- Python `str(o)` for an optional domain string (`str(None) = "None"`). -/
def optDomStr (o : Option (List Char)) : List Char := o.getD ("None".data)

/-- Decimal rendering of an optional integer field. -/
def optNatStr : Option Nat → List Char
  | some n => Nat.toDigits 10 n
  | none => "None".data

/-- The zero-run collapsing loop of the AAAA branch of `RecordData.__str__`
(src/dnsclient.py lines 84-96), restructured from index mutation to list
recursion.  The `Bool` is the `encounter` flag:
  * group `'0'`, not yet encountered: replace it by the empty string and set
    the flag;
  * group `'0'`, flag set: pop it;
  * group not `'0'`, flag set: `break`, leaving the rest untouched;
  * group not `'0'`, flag clear: keep it and move on. -/
def zcollapse : List (List Char) → Bool → List (List Char)
  | [], _ => []
  | g :: gs, false => if g = ['0'] then [] :: zcollapse gs true else g :: zcollapse gs false
  | g :: gs, true => if g = ['0'] then zcollapse gs true else g :: gs

/-- Specification-side description of the same transformation: the first
maximal run of `'0'` groups is replaced by one empty segment, everything
after that run is kept verbatim (`dropZeros` removes the rest of the run). -/
def dropZeros : List (List Char) → List (List Char)
  | [] => []
  | g :: gs => if g = ['0'] then dropZeros gs else g :: gs

/-- Specification-side first-maximal-zero-run collapse. -/
def collapseFirst : List (List Char) → List (List Char)
  | [] => []
  | g :: gs => if g = ['0'] then [] :: dropZeros gs else g :: collapseFirst gs

/-- `RecordData.__str__` (src/dnsclient.py lines 71-99):
  * A: `'.'.join` of the first four bytes rendered in decimal
    (`struct.unpack_from('!4B', ...)` raises unless at least 4 bytes, and a
    `TypeError` when `IP` is still `None`);
  * NS / CNAME: the stored domain string;
  * MX: `"Preference: p, ME: d"`;
  * AAAA: eight big-endian 16-bit groups in unpadded lowercase hex
    (`hex(x)[2:]`), with the zero-run collapsing loop, joined by `':'`;
  * any other type: the method falls through and returns Python `None`. -/
def recordStr (r : RecordDataS) : Except PyErr (Option (List Char)) :=
  if r.rtype = 1 then
    match r.IP with
    | none => .error .typeError
    | some ip =>
      if 4 ≤ ip.length then
        .ok (some (joinSep '.' ((ip.take 4).map (fun b => Nat.toDigits 10 b))))
      else .error .structError
  else if r.rtype = 2 then .ok (some (optDomStr r.NS))
  else if r.rtype = 5 then .ok (some (optDomStr r.CName))
  else if r.rtype = 15 then
    .ok (some ("Preference: ".data ++ optNatStr r.Preference ++ ", ME: ".data
                ++ optDomStr r.ME))
  else if r.rtype = 28 then
    match r.IP with
    | none => .error .typeError
    | some ip =>
      if 16 ≤ ip.length then
        .ok (some (joinSep ':'
          (zcollapse (((List.range 8).map (fun k => beU16 ip (2 * k))).map
            (fun g => Nat.toDigits 16 g)) false)))
      else .error .structError
  else .ok none

/-- Membership of a numeric value in the `QueryType` enumeration
(src/dnsclient.py lines 9-19); `QueryType(v)` raises `ValueError` otherwise. -/
def isQueryType (t : Nat) : Bool :=
  t == 1 || t == 2 || t == 5 || t == 15 || t == 28

/-- A parsed resource record (`Answer`, src/dnsclient.py lines 215-243). -/
structure AnswerParsed where
  Name : List Char
  typ : Nat
  cls : Nat
  TTL : Nat
  RDLength : Nat
  RData : RecordDataS
deriving DecidableEq, Repr

/-- `Answer.parse(data, offset)` (src/dnsclient.py lines 226-243):
decode the owner name, then `struct.unpack_from("!2H1I1H", data, i)` (a
`struct.error` unless 10 bytes remain), then `QueryType(type)` — which raises
`ValueError` for any numeric type outside the enumeration — then the RDATA. -/
def answerParse (data : List Nat) (fuel offset : Nat) :
    Except PyErr (AnswerParsed × Nat) :=
  match parseF data fuel offset with
  | .error e => .error e
  | .ok (nm, i) =>
    if i + 10 ≤ data.length then
      if isQueryType (beU16 data i) then
        match rdParse (beU16 data i) data (beU16 data (i + 8)) fuel (i + 10) with
        | .error e => .error e
        | .ok (rd, j) =>
            .ok ({ Name := nm, typ := beU16 data i, cls := beU16 data (i + 2),
                   TTL := beU32 data (i + 4), RDLength := beU16 data (i + 8),
                   RData := rd }, j)
      else .error .valueError
    else .error .structError

/-- The `DNSQryHeader` field bag after `construct` (src/dnsclient.py lines
312-344; `construct` assigns `ANcount`/`NScount`/`ARcount`, the names
`__bytes__` reads back). -/
structure DNSQryHeaderS where
  ID : Nat
  QR : Nat
  OpCode : Nat
  TC : Nat
  RD : Nat
  Z : Nat
  AD : Nat
  NA : Nat
  QDCount : Nat
  ANcount : Nat
  NScount : Nat
  ARcount : Nat
deriving DecidableEq, Repr

/-- `DNSQryHeader.construct(id, rd, qdcount)` (src/dnsclient.py lines
324-344).  Note the code sets `Z = 1`. -/
def hdrConstruct (id rd : Nat) (qdcount : Nat) : DNSQryHeaderS :=
  ⟨id, 0, 0, 0, rd, 1, 0, 0, qdcount, 0, 0, 0⟩

/-- `int(n).to_bytes(2, 'big')`; the theorems below restrict to `n < 2^16`,
where `to_bytes` succeeds. -/
def b16 (n : Nat) : List Nat := [n / 256 % 256, n % 256]

/-- `DNSQryHeader.__bytes__` (src/dnsclient.py lines 346-361): the flags word
is assembled by the shift/or chain
`(((((QR<<4|OpCode)<<2|TC)<<1|RD)<<2|Z)<<1|AD)<<1|NA) << 4`. -/
def hdrBytes (h : DNSQryHeaderS) : List Nat :=
  let misc := ((((((h.QR <<< 4 ||| h.OpCode) <<< 2 ||| h.TC) <<< 1 ||| h.RD) <<< 2
      ||| h.Z) <<< 1 ||| h.AD) <<< 1 ||| h.NA) <<< 4
  b16 h.ID ++ b16 misc ++ b16 h.QDCount ++ b16 h.ANcount ++ b16 h.NScount
    ++ b16 h.ARcount

/-- What the iterative `__main__` loop reads out of one parsed answer RR: the
owner name and numeric type, and the rendered `str(...RData)` used as the
next server address or CNAME target (src/dnsclient.py lines 427-451). -/
structure AnswerS where
  name : List Char
  typ : Nat
  rdataStr : List Char
deriving DecidableEq, Repr

/-- One parsed response, restricted to the `Answers` and `NS` sections the
iterative loop inspects. -/
structure RespS where
  answers : List AnswerS
  ns : List AnswerS
deriving DecidableEq, Repr

/-- The first termination check, `ended = res.Answers and
str(res.Answers[0].Name) == domain` (src/dnsclient.py lines 434-435).
There is no CNAME condition here. -/
def ended1 (res : RespS) (domain : List Char) : Bool :=
  match res.answers with
  | [] => false
  | a :: _ => a.name == domain

/-- The in-loop termination check, `ended = res.Answers and (type ==
QueryType.CNAME or res.Answers[0].Type != QueryType.CNAME) and
str(res.Answers[0].Name) == domain` (src/dnsclient.py lines 450-451). -/
def endedN (qtype : Nat) (res : RespS) (domain : List Char) : Bool :=
  match res.answers with
  | [] => false
  | a :: _ => (qtype == 5 || !(a.typ == 5)) && a.name == domain

/-- The `while not ended` loop of the iterative driver (src/dnsclient.py
lines 437-451), over a scripted transport: each `query(...)` consumes the
next response of `script`.  Returns the final response together with the
total number of queries issued; `none` models an `IndexError`
(`res.NS[0]` on an empty authority section), an exhausted script, or an
exhausted fuel budget. -/
def iterLoop (qtype : Nat) :
    Nat → List RespS → List Char → List Char → RespS → Nat → Bool →
      Option (RespS × Nat)
  | 0, _, _, _, _, _, _ => none
  | fuel + 1, script, dns, domain, res, count, ended =>
    if ended then some (res, count)
    else
      if (match res.answers with
          | a :: _ => a.typ == 5
          | [] => false) then
        match res.answers with
        | [] => none
        | a :: _ =>
          match script with
          | [] => none
          | res2 :: rest =>
            iterLoop qtype fuel rest dns a.rdataStr res2 (count + 1)
              (endedN qtype res2 a.rdataStr)
      else
        match res.ns with
        | [] => none
        | n :: _ =>
          match script with
          | [] => none
          | res2 :: rest =>
            iterLoop qtype fuel rest n.rdataStr domain res2 (count + 1)
              (endedN qtype res2 domain)

/-- The whole iterative branch of `__main__` (src/dnsclient.py lines
422-451) over a scripted transport: query 1 fetches a root `A` answer whose
rendered RDATA becomes the server, query 2 asks it for `(domain, type)`,
then the loop runs with the first `ended` check (which has no CNAME
condition).  The returned `Nat` counts queries issued. -/
def iterResolve (qtype fuel : Nat) (script : List RespS) (domain : List Char) :
    Option (RespS × Nat) :=
  match script with
  | [] => none
  | res1 :: rest =>
    match res1.answers with
    | [] => none
    | a1 :: _ =>
      match rest with
      | [] => none
      | res2 :: rest2 =>
        iterLoop qtype fuel rest2 a1.rdataStr domain res2 2 (ended1 res2 domain)

/-! ### Helper lemmas -/

theorem getD_append_len (pre rest : List Nat) (d : Nat) :
    (pre ++ rest).getD pre.length d = rest.getD 0 d := by
  induction pre with
  | nil => simp
  | cons a l ih => simpa using ih

theorem drop_append_len_succ (pre : List Nat) (x : Nat) (rest : List Nat) :
    (pre ++ x :: rest).drop (pre.length + 1) = rest := by
  induction pre with
  | nil => simp
  | cons a l ih => simpa using ih

theorem take_len_append (xs ys : List Nat) : (xs ++ ys).take xs.length = xs := by
  simp

theorem take_map_len (l : List Char) (ys : List Nat) :
    (l.map Char.toNat ++ ys).take l.length = l.map Char.toNat := by
  simpa using take_len_append (l.map Char.toNat) ys

theorem asciiDecode_map (l : List Char) (h : ∀ c ∈ l, c.toNat < 128) :
    asciiDecode (l.map Char.toNat) = some l := by
  induction l with
  | nil => rfl
  | cons c r ih =>
    have hc := h c (by simp)
    have hr := ih (fun x hx => h x (by simp [hx]))
    simp [asciiDecode, hc, hr, Char.ofNat_toNat]

theorem splitDot_ne_nil (l : List Char) : splitDot l ≠ [] := by
  induction l with
  | nil => simp [splitDot]
  | cons c r ih =>
    rcases h : splitDot r with _ | ⟨h1, t1⟩
    · exact absurd h ih
    · simp only [splitDot, h]
      split <;> simp

theorem splitDot_no_dot (l : List Char) (h : '.' ∉ l) : splitDot l = [l] := by
  induction l with
  | nil => rfl
  | cons c r ih =>
    have hc : c ≠ '.' := fun e => h (by simp [e])
    have hr := ih (fun hm => h (by simp [hm]))
    simp [splitDot, hr, hc]

theorem splitDot_append_dot (l t : List Char) (h : '.' ∉ l) :
    splitDot (l ++ '.' :: t) = l :: splitDot t := by
  induction l with
  | nil =>
    rcases ht : splitDot t with _ | ⟨h1, t1⟩
    · exact absurd ht (splitDot_ne_nil t)
    · simp [splitDot, ht]
  | cons c r ih =>
    have hc : c ≠ '.' := fun e => h (by simp [e])
    have hr := ih (fun hm => h (by simp [hm]))
    simp [splitDot, hr, hc]

theorem splitDot_joinDot (L : List (List Char)) (h : ∀ l ∈ L, '.' ∉ l)
    (hne : L ≠ []) : splitDot (joinDot L) = L := by
  induction L with
  | nil => cases hne rfl
  | cons l M ih =>
    cases M with
    | nil => simpa [joinDot, joinSep] using splitDot_no_dot l (h l (by simp))
    | cons m M2 =>
      have hj : joinDot (l :: m :: M2) = l ++ '.' :: joinDot (m :: M2) := by
        simp [joinDot, joinSep]
      rw [hj, splitDot_append_dot l _ (h l (by simp)),
        ih (fun x hx => h x (by simp [hx])) (by simp)]

theorem dotted_eq (L : List (List Char)) (h : L ≠ []) :
    dotted L = joinDot L ++ ['.'] := by
  induction L with
  | nil => cases h rfl
  | cons l M ih =>
    cases M with
    | nil => simp [dotted, joinDot, joinSep]
    | cons m M2 =>
      have hih := ih (by simp)
      rw [show dotted (l :: m :: M2) = l ++ '.' :: dotted (m :: M2) from rfl, hih]
      simp [joinDot, joinSep]

/-- The parse loop consumes a well-formed label sequence placed after an
arbitrary prefix: each label is appended (followed by a dot) and the loop
stops on the zero terminator without following anything. -/
theorem goF_labels (L : List (List Char)) :
    ∀ (pre : List Nat) (dom : List Char) (f : Nat),
      L.length < f →
      (∀ l ∈ L, 1 ≤ l.length ∧ l.length ≤ 63 ∧ ∀ c ∈ l, c.toNat < 128) →
      goF (pre ++ (encLabels L ++ [0])) f pre.length dom =
        .ok (dom ++ dotted L, pre.length + (encLabels L).length, false) := by
  induction L with
  | nil =>
    intro pre dom f hf _
    match f, hf with
    | f + 1, _ =>
      have h0 : (pre ++ (encLabels [] ++ [0])).getD pre.length 0 = 0 := by
        rw [getD_append_len]; rfl
      rw [goF, if_neg fun hcon => hcon.2 h0]
      simp [encLabels, dotted]
  | cons l L ih =>
    intro pre dom f hf hlab
    obtain ⟨hl1, hl63, hlascii⟩ := hlab l (by simp)
    match f with
    | f + 1 =>
      have hshape : pre ++ (encLabels (l :: L) ++ [0]) =
          pre ++ l.length :: (l.map Char.toNat ++ (encLabels L ++ [0])) := by
        simp [encLabels]
      have hbyte : (pre ++ (encLabels (l :: L) ++ [0])).getD pre.length 0 = l.length := by
        rw [getD_append_len]; rfl
      have hlenb : pre.length < (pre ++ (encLabels (l :: L) ++ [0])).length := by
        simp only [List.length_append, encLabels, List.length_cons]
        omega
      have hdrop : (pre ++ (encLabels (l :: L) ++ [0])).drop (pre.length + 1) =
          l.map Char.toNat ++ (encLabels L ++ [0]) := by
        rw [hshape]; exact drop_append_len_succ pre l.length _
      rw [goF, if_pos ⟨hlenb, by omega⟩, hbyte, if_neg (by omega), hdrop, take_map_len,
        asciiDecode_map l hlascii]
      have harr : (pre ++ l.length :: l.map Char.toNat).length = pre.length + 1 + l.length := by
        simp only [List.length_append, List.length_cons, List.length_map]
        omega
      have hdata : (pre ++ l.length :: l.map Char.toNat) ++ (encLabels L ++ [0]) =
          pre ++ (encLabels (l :: L) ++ [0]) := by
        simp [encLabels]
      have hrec := ih (pre ++ l.length :: l.map Char.toNat) (dom ++ l ++ ['.']) f
        (by simpa using Nat.lt_of_succ_lt_succ hf)
        (fun x hx => hlab x (by simp [hx]))
      rw [hdata, harr] at hrec
      have hlen2 : pre.length + 1 + l.length + (encLabels L).length =
          pre.length + (encLabels (l :: L)).length := by
        simp only [encLabels, List.length_cons, List.length_append, List.length_map]
        omega
      simp only [hrec, hlen2, dotted]
      simp

theorem finishDN_concat_dot (dom : List Char) (i : Nat) (om : Bool) :
    finishDN (dom ++ ['.'], i, om) = .ok (dom, if om then i else i + 1) := by
  simp [finishDN]

/-! ### Claim C1 -/

/-- C1: for every valid dotted domain name — a nonempty list of labels, each
1-63 bytes of ASCII with no embedded dots — decoding the byte sequence
produced by encoding that name (`DomainName.__bytes__` followed by
`DomainName.parse` at offset 0) yields the original name string (and the
offset just past the terminating zero byte). -/
theorem C1_round_trip (L : List (List Char)) (hne : L ≠ [])
    (hlab : ∀ l ∈ L,
      (1 ≤ l.length ∧ l.length ≤ 63) ∧ ∀ c ∈ l, c.toNat < 128 ∧ c ≠ '.') :
    parseF (dnBytes (joinDot L)) (L.length + 1) 0 =
      .ok (joinDot L, (dnBytes (joinDot L)).length) := by
  have hnd : ∀ l ∈ L, '.' ∉ l := fun l hl hc => ((hlab l hl).2 _ hc).2 rfl
  have hsplit : splitDot (joinDot L) = L := splitDot_joinDot L hnd hne
  have henc : dnBytes (joinDot L) = encLabels L ++ [0] := by rw [dnBytes, hsplit]
  have hgo := goF_labels L [] [] (L.length + 1) (by omega)
    (fun l hl => ⟨(hlab l hl).1.1, (hlab l hl).1.2, fun c hc => ((hlab l hl).2 c hc).1⟩)
  simp only [List.nil_append, List.length_nil, Nat.zero_add] at hgo
  rw [henc, parseF, hgo]
  have hdot : dotted L = joinDot L ++ ['.'] := dotted_eq L hne
  rw [hdot]
  show finishDN (joinDot L ++ ['.'], (encLabels L).length, false) = _
  rw [finishDN_concat_dot]
  simp [henc]

/-- C1 witness: the concrete name `a.bc` round-trips. -/
theorem C1_witness :
    parseF (dnBytes (joinDot [['a'], ['b', 'c']])) 3 0 =
      .ok (joinDot [['a'], ['b', 'c']], (dnBytes (joinDot [['a'], ['b', 'c']])).length) :=
  C1_round_trip [['a'], ['b', 'c']] (by decide) (by decide)

/-! ### Claim C2 -/

set_option maxRecDepth 4000 in
/-- C2 counterexample: the claim says any first byte with top two bits `11`
starts a 2-byte compression pointer whose 14-bit value is the target.  In a
buffer starting with byte `0xC1 0x00` (14-bit pointer value 256, where label
`a` sits), the code instead treats `0xC1 = 193` as an ordinary label length:
it returns 193 NUL characters and offset 195, not the pointed-to name `a`
with nextOffset 2. -/
theorem C2_counterexample :
    (193 :: 0 :: (List.replicate 254 0 ++ [1, 97, 0])).getD 0 0 / 64 = 3
    ∧ parseF (193 :: 0 :: (List.replicate 254 0 ++ [1, 97, 0])) 3 0 =
        .ok (List.replicate 193 (Char.ofNat 0), 195)
    ∧ parseF (193 :: 0 :: (List.replicate 254 0 ++ [1, 97, 0])) 3 0 ≠
        .ok (['a'], 2) := by
  refine ⟨by decide, by decide, by decide⟩

/-- C2 amended: the code recognises a compression pointer only when the byte
is EXACTLY `0xC0`, and the target offset is the second byte alone (an 8-bit
target, not 14 bits).  In that case the recursively decoded labels are
appended to the labels collected so far and the loop stops with `omit` at
the pointer's offset plus 2; `DomainName.parse` then returns that
`nextOffset` unchanged (not an offset reached by following the pointer). -/
theorem C2_amended (data : List Nat) (fuel i : Nat) (dom sub : List Char) (j : Nat)
    (hlen : i + 1 < data.length) (hptr : data.getD i 0 = 192)
    (hsub : parseF data fuel (data.getD (i + 1) 0) = .ok (sub, j))
    (hlast : ∃ c, sub.getLast? = some c ∧ c ≠ '.') :
    goF data (fuel + 1) i dom = .ok (dom ++ sub, i + 2, true)
    ∧ parseF data (fuel + 1) i = .ok (sub, i + 2) := by
  obtain ⟨c, hc, hcdot⟩ := hlast
  have hgg : ∀ d : List Char, goF data (fuel + 1) i d = .ok (d ++ sub, i + 2, true) := by
    intro d
    have hstep : goF data (fuel + 1) i d =
        (match parseF data fuel (data.getD (i + 1) 0) with
         | .error e => .error e
         | .ok (s, _) => .ok (d ++ s, i + 2, true)) := by
      rw [goF, if_pos ⟨by omega, by rw [hptr]; omega⟩, if_pos hptr, if_pos hlen]
      rfl
    rw [hstep, hsub]
  refine ⟨hgg dom, ?_⟩
  rw [parseF, hgg []]
  simp [finishDN, hc, hcdot]

/-- C2 witness: buffer `01 'a' 00 C0 00` with a pointer at offset 3 back to
offset 0; mid-parse accumulator `b.` gets the pointed-to label `a` appended,
and the top-level parse at the pointer returns nextOffset 5 = 3 + 2. -/
theorem C2_witness :
    goF [1, 97, 0, 192, 0] 6 3 ['b', '.'] = .ok (['b', '.', 'a'], 5, true)
    ∧ parseF [1, 97, 0, 192, 0] 6 3 = .ok (['a'], 5) :=
  C2_amended [1, 97, 0, 192, 0] 5 3 ['b', '.'] ['a'] 3 (by decide) (by decide)
    (by decide) ⟨'a', by decide, by decide⟩

/-! ### Claim C3 -/

theorem selfPtr_never (fuel : Nat) :
    goF [192, 0] fuel 0 [] = .error .recursionError := by
  induction fuel with
  | zero => rfl
  | succ f ih =>
    rw [goF, if_pos (by decide), if_pos (by decide), if_pos (by decide),
      show ([192, 0] : List Nat).getD (0 + 1) 0 = 0 from rfl, ih]

/-- C3 amended: on the self-referential pointer buffer `C0 00` (target offset
equal to the pointer's own offset 0) `DomainName.parse` recurses without
bound: EVERY fuel budget is exhausted, i.e. the Python code recurses until
the interpreter kills it with `RecursionError`.  No `MalformedMessage` guard
exists anywhere in the code (no such exception is ever raised). -/
theorem C3_amended (fuel : Nat) :
    parseF [192, 0] fuel 0 = .error .recursionError := by
  rw [parseF, selfPtr_never]

set_option maxRecDepth 4000 in
/-- C3 counterexample: at the concrete recursion budget 100 the
self-referential buffer still yields only the recursion-limit failure, never
a `MalformedMessage`-style structured failure and never a result. -/
theorem C3_counterexample :
    parseF [192, 0] 100 0 = .error .recursionError := by decide

/-- C3 witness: the amended theorem applied at fuel 7. -/
theorem C3_witness : parseF [192, 0] 7 0 = .error .recursionError :=
  C3_amended 7

/-! ### Claim C4 -/

/-- A scripted root response: one A answer whose rendered RDATA is the next
server, as in scenario step 1. -/
def r1c4 : RespS := ⟨[⟨['r'], 1, "1.2.3.4".data⟩], []⟩

/-- A scripted second response whose FIRST answer is a CNAME for the queried
name `w`. -/
def r2c4 : RespS := ⟨[⟨['w'], 5, ['t']⟩], []⟩

/-- C4 counterexample: with requested type A (≠ CNAME) and a second response
whose first answer is a CNAME owned by the queried domain, the claimed
termination condition (owner matches AND (type is CNAME or first answer not
CNAME)) is false, yet the walk terminates after 2 queries and returns that
response: the first `ended` check (line 434) has no CNAME conjunct. -/
theorem C4_counterexample :
    iterResolve 1 5 [r1c4, r2c4] ['w'] = some (r2c4, 2)
    ∧ (r2c4.answers.head?.map AnswerS.typ) = some 5
    ∧ (1 : Nat) ≠ 5 := by
  refine ⟨by decide, by decide, by decide⟩

/-- C4 amended: the first termination check (after the second query) tests
only that the answer list is nonempty and the FIRST answer's owner name
equals the domain — it has no CNAME condition; the in-loop checks
additionally require (qtype = CNAME or first answer's type ≠ CNAME), still
reading only the first answer.  In particular, the scripted three-response
scenario (root A answer; referral with empty answers and a nonempty
authority section; final answer owned by the queried domain that satisfies
the CNAME side-condition) issues exactly 3 queries and returns the third
response. -/
theorem C4_amended (qtype fuel : Nat) (domain : List Char) (r1 r2 r3 : RespS)
    (a1 a3 : AnswerS)
    (h1 : r1.answers.head? = some a1)
    (h2 : r2.answers = [])
    (hns : r2.ns ≠ [])
    (h3 : r3.answers.head? = some a3)
    (hname : a3.name = domain)
    (htype : qtype = 5 ∨ a3.typ ≠ 5) :
    iterResolve qtype (fuel + 2) [r1, r2, r3] domain = some (r3, 3) := by
  obtain ⟨ans1, ns1⟩ := r1
  obtain ⟨ans2, ns2⟩ := r2
  obtain ⟨ans3, ns3⟩ := r3
  dsimp only at h1 h2 hns h3 ⊢
  subst h2
  rcases ns2 with _ | ⟨n, tn⟩
  · exact absurd rfl hns
  · rcases ans1 with _ | ⟨b1, t1⟩
    · cases h1
    · rcases ans3 with _ | ⟨b3, t3⟩
      · cases h3
      · have hb1 : b1 = a1 := by simpa using h1
        have hb3 : b3 = a3 := by simpa using h3
        subst hb1
        subst hb3
        have hendN : endedN qtype ⟨b3 :: t3, ns3⟩ domain = true := by
          show ((qtype == 5 || !(b3.typ == 5)) && b3.name == domain) = true
          rw [hname]
          rcases htype with h | h <;> simp [h]
        show iterLoop qtype (fuel + 1) [] n.rdataStr domain ⟨b3 :: t3, ns3⟩ 3
            (endedN qtype ⟨b3 :: t3, ns3⟩ domain) = some (⟨b3 :: t3, ns3⟩, 3)
        rw [hendN]
        rfl

/-- C4 witness: a concrete three-response script — root A answer, referral
with one authority NS record, final matching A answer — resolves in exactly
3 queries to the third response. -/
theorem C4_witness :
    iterResolve 1 2 [⟨[⟨['r'], 1, "1.2.3.4".data⟩], []⟩,
        ⟨[], [⟨['n'], 2, "5.6.7.8".data⟩]⟩,
        ⟨[⟨['w'], 1, "9.9.9.9".data⟩], []⟩] ['w'] =
      some (⟨[⟨['w'], 1, "9.9.9.9".data⟩], []⟩, 3) :=
  C4_amended 1 0 ['w'] _ _ _ ⟨['r'], 1, "1.2.3.4".data⟩ ⟨['w'], 1, "9.9.9.9".data⟩
    rfl rfl (by decide) rfl rfl (Or.inr (by decide))

/-! ### Claim C5 -/

/-- C5 counterexample: the claim says every flag bit other than RD is 0, but
the constructed header (here id 0, rd 0) carries flags bytes `00 40`: bit 6
— the high bit of the reserved Z field — is always set, because `construct`
assigns `Z = 1`. -/
theorem C5_counterexample :
    hdrBytes (hdrConstruct 0 0 1) ≠ [0, 0, 0, 0, 0, 1, 0, 0, 0, 0, 0, 0]
    ∧ hdrBytes (hdrConstruct 0 0 1) = [0, 0, 0, 64, 0, 1, 0, 0, 0, 0, 0, 0] := by
  refine ⟨by decide, by decide⟩

/-- C5 amended: for every id in [0, 65535] and rd in {0, 1}, the encoded
request header has QR=0, OpCode=0, QDCount=1, ANCount=NSCount=ARCount=0, RD
set exactly as given, and every other flag bit 0 EXCEPT bit 6 of the flags
word (value 0x40, the high bit of the 3-bit reserved Z field), which is
always set. -/
theorem C5_amended (id rd : Nat) (hid : id < 65536) (hrd : rd ≤ 1) :
    hdrBytes (hdrConstruct id rd 1) =
      [id / 256, id % 256, rd, 64, 0, 1, 0, 0, 0, 0, 0, 0] := by
  interval_cases rd <;>
    simp [hdrBytes, hdrConstruct, b16, Nat.shiftLeft_eq] <;> omega

/-- C5 witness: the amended claim at id 0x1234 with RD = 1. -/
theorem C5_witness :
    hdrBytes (hdrConstruct 4660 1 1) = [18, 52, 1, 64, 0, 1, 0, 0, 0, 0, 0, 0] :=
  C5_amended 4660 1 (by decide) (by decide)

/-! ### Claim C6 -/

/-- C6 (code-bug evidence): for an MX RDATA whose preference field is the
big-endian bytes `00 0A` (wire value 10) followed by the encoded exchange
name `a`, `RecordData.parse` stores preference 2560 = 0x0A00, because
`struct.unpack('H', ...)` uses NATIVE byte order (little-endian on the
reference platform) instead of the big-endian order the wire format and the
claim require; rendering then yields `Preference: 2560, ME: a`. -/
theorem C6_eval :
    rdParse 15 [0, 10, 1, 97, 0] 5 9 0 =
      .ok ({ blankRD 15 with Preference := some 2560, ME := some ['a'] }, 5)
    ∧ recordStr { blankRD 15 with Preference := some 2560, ME := some ['a'] } =
        .ok (some ("Preference: 2560, ME: a".data))
    ∧ (2560 : Nat) ≠ 10 := by
  refine ⟨by decide, by decide, by decide⟩

/-! ### Claim C7 -/

theorem zcollapse_true (gs : List (List Char)) : zcollapse gs true = dropZeros gs := by
  induction gs with
  | nil => rfl
  | cons g r ih => by_cases hg : g = ['0'] <;> simp [zcollapse, dropZeros, hg, ih]

theorem zcollapse_false (gs : List (List Char)) :
    zcollapse gs false = collapseFirst gs := by
  induction gs with
  | nil => rfl
  | cons g r ih =>
    by_cases hg : g = ['0'] <;> simp [zcollapse, collapseFirst, hg, ih, zcollapse_true]

set_option maxRecDepth 2000 in
/-- C7 counterexample: the all-zero 16-byte AAAA address renders as the EMPTY
string (the single maximal run of eight zero groups collapses to one empty
segment and nothing else remains), not as an 8-group form with 7 colons as
the claim states. -/
theorem C7_counterexample :
    recordStr { blankRD 28 with IP := some (List.replicate 16 0) } = .ok (some [])
    ∧ ([] : List Char).count ':' ≠ 7 := by
  refine ⟨by decide, by decide⟩

set_option maxRecDepth 2000 in
/-- C7 amended: AAAA rendering produces the eight big-endian 16-bit groups
in unpadded lowercase hex and collapses exactly the first maximal run of
zero groups to a single empty segment (the code loop `zcollapse` equals the
specification-side `collapseFirst` transformation); consequently the
all-zero address renders as the empty string (its whole group list is one
zero run), and `0:0:1:0:0:0:0:1` collapses only the first run, rendering as
`:1:0:0:0:0:1`. -/
theorem C7_amended :
    (∀ gs : List (List Char), zcollapse gs false = collapseFirst gs)
    ∧ recordStr { blankRD 28 with IP := some (List.replicate 16 0) } = .ok (some [])
    ∧ recordStr { blankRD 28 with
        IP := some [0, 0, 0, 0, 0, 1, 0, 0, 0, 0, 0, 0, 0, 0, 0, 1] } =
      .ok (some (":1:0:0:0:0:1".data)) := by
  refine ⟨zcollapse_false, by decide, by decide⟩

/-! ### Claim C8 -/

/-- C8 counterexample: a record with numeric type 16 (TXT, outside the
enumeration) makes `Answer.parse` fail with `ValueError` — raised by
`QueryType(type)` — so decoding such a record DOES fail, contrary to the
claim. -/
theorem C8_counterexample :
    answerParse [1, 97, 0, 0, 16, 0, 1, 0, 0, 0, 0, 0, 0] 5 0 =
      .error .valueError := by decide

/-- C8 amended: for a resource record whose numeric type is outside
{1, 2, 5, 15, 28}, `Answer.parse` raises `ValueError` at the
`QueryType(type)` lookup (decoding fails; nothing is preserved);
`RecordData.parse` called with such a type keeps the numeric type tag but
leaves every payload field unset and the offset unchanged (the RDATA bytes
are skipped, not stored); and rendering such a `RecordData` produces Python
`None` rather than a string. -/
theorem C8_amended :
    (∀ (data : List Nat) (fuel offset : Nat) (nm : List Char) (i : Nat),
      parseF data fuel offset = .ok (nm, i) → i + 10 ≤ data.length →
      isQueryType (beU16 data i) = false →
      answerParse data fuel offset = .error .valueError)
    ∧ (∀ (t : Nat) (data : List Nat) (len fuel i : Nat), isQueryType t = false →
        rdParse t data len fuel i = .ok (blankRD t, i))
    ∧ (∀ t : Nat, isQueryType t = false → recordStr (blankRD t) = .ok none) := by
  refine ⟨?_, ?_, ?_⟩
  · intro data fuel offset nm i hp hlen ht
    simp [answerParse, hp, hlen, ht]
  · intro t data len fuel i ht
    simp only [isQueryType, Bool.or_eq_false_iff, beq_eq_false_iff_ne] at ht
    obtain ⟨⟨⟨⟨h1, h2⟩, h5⟩, h15⟩, h28⟩ := ht
    simp [rdParse, h1, h2, h5, h15, h28]
  · intro t ht
    simp only [isQueryType, Bool.or_eq_false_iff, beq_eq_false_iff_ne] at ht
    obtain ⟨⟨⟨⟨h1, h2⟩, h5⟩, h15⟩, h28⟩ := ht
    simp [recordStr, blankRD, h1, h2, h5, h15, h28]

/-- C8 witness: the amended claim applied to the concrete type-16 record,
to `RecordData.parse` at type 16, and to rendering. -/
theorem C8_witness :
    answerParse [1, 97, 0, 0, 16, 0, 1, 0, 0, 0, 0, 0, 0] 7 0 = .error .valueError
    ∧ rdParse 16 [] 0 5 3 = .ok (blankRD 16, 3)
    ∧ recordStr (blankRD 16) = .ok none := by
  refine ⟨C8_amended.1 _ 7 0 ['a'] 3 (by decide) (by decide) (by decide),
    C8_amended.2.1 16 [] 0 5 3 (by decide),
    C8_amended.2.2 16 (by decide)⟩

/-! ### Claim C9 -/

/-- C9 counterexample: encoding the empty (root) domain name produces TWO
zero bytes, not one: `''.split('.')` is `['']`, so the loop emits a zero
length octet for the single empty label before the zero terminator. -/
theorem C9_counterexample :
    dnBytes [] = [0, 0] ∧ dnBytes [] ≠ [0] := by
  refine ⟨by decide, by decide⟩

/-- C9 amended: encoding the empty domain name produces the two bytes
`00 00` (a zero length octet for the empty label, then the terminator);
every non-empty name — a nonempty list of dot-free labels each at most 255
bytes (the `bytes([n])` limit) — encodes as, for each label, a one-byte
length octet followed by the label's ASCII bytes, terminated by a single
zero length octet. -/
theorem C9_amended :
    dnBytes [] = [0, 0]
    ∧ ∀ L : List (List Char), L ≠ [] →
        (∀ l ∈ L, l.length ≤ 255 ∧ '.' ∉ l) →
        dnBytes (joinDot L) = encLabels L ++ [0] := by
  refine ⟨by decide, ?_⟩
  intro L hne h
  rw [dnBytes, splitDot_joinDot L (fun l hl => (h l hl).2) hne]

/-- C9 witness: the amended claim at the one-label name `a`. -/
theorem C9_witness : dnBytes (joinDot [['a']]) = encLabels [['a']] ++ [0] :=
  C9_amended.2 [['a']] (by decide) (by decide)

/-! ### Claim C10 -/

/-- C10: whenever the byte at the parse offset is the zero terminator (a
wire-format root/empty name), `DomainName.parse` raises an exception — the
accumulated string is empty, so `self._domain[-1]` is an `IndexError` —
instead of returning the empty name with `nextOffset = offset + 1`;
consequently `Answer.parse` (and likewise `Query.parse`, which starts the
same way) on a record owned by the root name fails with the same error. -/
theorem C10_root_name (data : List Nat) (fuel offset : Nat)
    (hlt : offset < data.length) (h0 : data.getD offset 0 = 0) :
    parseF data (fuel + 1) offset = .error .indexError
    ∧ answerParse data (fuel + 1) offset = .error .indexError := by
  have hgo : goF data (fuel + 1) offset [] = .ok ([], offset, false) := by
    rw [goF, if_neg fun hcon => hcon.2 h0]
  have hp : parseF data (fuel + 1) offset = .error .indexError := by
    rw [parseF, hgo]
    rfl
  refine ⟨hp, ?_⟩
  simp [answerParse, hp]

/-- C10 witness: the buffer `[0]` (a lone root name) at offset 0. -/
theorem C10_witness :
    parseF [0] 1 0 = .error .indexError
    ∧ answerParse [0] 1 0 = .error .indexError :=
  C10_root_name [0] 0 0 (by decide) (by decide)
